import Mathlib

/-!
Formal model of the Bazarr backup/restore subsystem
(`bazarr/utilities/backup.py`) and of the Radarr filesystem-browser
endpoint (`bazarr/api/files/files_radarr.py`).

File contents are abstracted: staged and live files are `Option Nat`
(`none` = absent, `some c` = present with content `c`).  Each fallible
operation of the source (an `OSError` on a copy/remove, `BadZipFile` on
extraction, a failure to open the restart sentinel, a failure of the
sqlite online-backup step) is given one explicit `Bool` fault flag, so
the model quantifies over every environment behaviour the Python
`try/except` structure distinguishes.
-/

/-- Filesystem state relevant to `restore_from_backup`: the staged pair
`restore/config.ini` / `restore/bazarr.db`, the live config and database
files, the database side files (`-shm`, `-wal`), the existence of the
restore-staging directory, the restart sentinel `bazarr.restart`, and
whether `os._exit(0)` ran. -/
structure FileState where
  stagedConfig : Option Nat
  stagedDb : Option Nat
  liveConfig : Option Nat
  liveDb : Option Nat
  shmPresent : Bool
  walPresent : Bool
  restoreDirExists : Bool
  restartSentinel : Bool
  exited : Bool
deriving DecidableEq

/-- One fault flag per fallible call in `restore_from_backup`
(`true` = that call raises `OSError`, resp. the sentinel `open` raises). -/
structure RestoreFaults where
  copyConfig : Bool
  removeStagedConfig : Bool
  copyDb : Bool
  removeStagedDb : Bool
  removeShm : Bool
  removeWal : Bool
  openRestart : Bool
  cleanupConfig : Bool
  cleanupDb : Bool
deriving DecidableEq

/-- The fault-free environment. -/
def noRestoreFaults : RestoreFaults :=
  ⟨false, false, false, false, false, false, false, false, false⟩

/-- First `try` block of the both-staged branch:
`shutil.copy(restore_config_path, dest_config_path); os.remove(restore_config_path)`
with `except OSError` logging.  If the copy raises, the remove is not
reached; if the remove raises, the copy has already happened. -/
def configRestoreStep (f : RestoreFaults) (cfg : Nat) (s : FileState) : FileState :=
  if f.copyConfig then s
  else if f.removeStagedConfig then { s with liveConfig := some cfg }
  else { s with liveConfig := some cfg, stagedConfig := none }

/-- Second `try` block of the both-staged branch, for `bazarr.db`. -/
def dbRestoreStep (f : RestoreFaults) (db : Nat) (s : FileState) : FileState :=
  if f.copyDb then s
  else if f.removeStagedDb then { s with liveDb := some db }
  else { s with liveDb := some db, stagedDb := none }

/-- Body of the `else:` of the database `try`: delete the `-shm` file if
present, then the `-wal` file if present; an `OSError` aborts the rest of
the block and is logged. -/
def removeSideFiles (f : RestoreFaults) (s : FileState) : FileState :=
  if s.shmPresent then
    if f.removeShm then s
    else
      if s.walPresent then
        if f.removeWal then { s with shmPresent := false }
        else { s with shmPresent := false, walPresent := false }
      else { s with shmPresent := false }
  else if s.walPresent then
    if f.removeWal then s else { s with walPresent := false }
  else s

/-- The `else:` clause runs only when the database `try` raised nothing. -/
def sideFileStep (f : RestoreFaults) (s : FileState) : FileState :=
  if !f.copyDb && !f.removeStagedDb then removeSideFiles f s else s

/-- Trailing cleanup of `restore_from_backup`: two independent
`try: os.remove(...) except OSError` blocks on the staged paths.
Removing an absent path raises `FileNotFoundError` (an `OSError`),
which is caught, so the model only deletes a present file whose
removal is not faulted. -/
def cleanupConfigStep (f : RestoreFaults) (s : FileState) : FileState :=
  if s.stagedConfig.isSome && !f.cleanupConfig then { s with stagedConfig := none } else s

/-- Second half of the trailing cleanup, for the staged database. -/
def cleanupDbStep (f : RestoreFaults) (s : FileState) : FileState :=
  if s.stagedDb.isSome && !f.cleanupDb then { s with stagedDb := none } else s

/-- The trailing cleanup pass as a whole. -/
def cleanupStaged (f : RestoreFaults) (s : FileState) : FileState :=
  cleanupDbStep f (cleanupConfigStep f s)

/-- Sentinel step: `open(bazarr.restart, "w")`; on success the file is
written, closed, and `os._exit(0)` terminates the process — nothing
after it runs, in particular not the trailing cleanup.  On failure the
error is logged and control falls through to the trailing cleanup. -/
def restartStep (f : RestoreFaults) (s : FileState) : FileState :=
  if f.openRestart then cleanupStaged f s
  else { s with restartSentinel := true, exited := true }

/-- `restore_from_backup()` (source lines 88-140).  `get_restore_path()`
creates the staging directory when missing; then:
both staged → copy/delete each file, clear side files, write sentinel and
hard-exit (or fall through to cleanup if the sentinel open failed);
exactly one staged → log, then fall through to the trailing cleanup;
none staged → log and return early (no trailing cleanup). -/
def restore_from_backup (f : RestoreFaults) (s0 : FileState) : FileState :=
  let s : FileState := { s0 with restoreDirExists := true }
  match s0.stagedConfig, s0.stagedDb with
  | some cfg, some db =>
      restartStep f (sideFileStep f (dbRestoreStep f db (configRestoreStep f cfg s)))
  | some _, none => cleanupStaged f s
  | none, some _ => cleanupStaged f s
  | none, none => s

/-- Observable outcome of `prepare_restore`: whether the archive members
were extracted into staging, whether the transient zip copy is still
present, and whether the webserver restart was triggered. -/
structure PrepareResult where
  extracted : Bool
  copiedZipPresent : Bool
  restartTriggered : Bool
deriving DecidableEq

/-- `prepare_restore(filename)` (source lines 143-171).  `success` starts
`False`; `shutil.copy` failure is logged.  Otherwise the archive is
extracted (`BadZipFile` on a corrupt archive is caught and logged) and —
in the source — `success = True` is executed after the extraction
`try/except`, regardless of the extraction's outcome.  The `finally`
removes the copied zip (a failure is logged; when the copy never
happened the remove raises `FileNotFoundError`, also caught).  When
`success`, `webserver.restart()` is invoked. -/
def prepare_restore (copyFails archiveCorrupt removeZipFails : Bool) : PrepareResult :=
  if copyFails then
    { extracted := false, copiedZipPresent := false, restartTriggered := false }
  else
    { extracted := !archiveCorrupt,
      copiedZipPresent := removeZipFails,
      restartTriggered := true }

/-- A Python error escaping a call to the subsystem. -/
inductive PyError where
  | typeError
  | osError
deriving DecidableEq

/-- Observable outcome of `backup_to_zip`: whether the archive file
exists on disk, which members it holds, whether the temporary database
snapshot is left behind, and which error (if any) propagated to the
caller. -/
structure BackupResult where
  archiveCreated : Bool
  archiveHasDb : Bool
  archiveHasConfig : Bool
  tempDbPresent : Bool
  raised : Option PyError
deriving DecidableEq

/-- `backup_to_zip()` (source lines 48-86), with one fault flag per
fallible step:
* `snapshotFails` — the sqlite online-backup `try` raises; the handler
  catches `Exception`, sets `database_backup_file = None` and logs;
* `zipCreateFails` — `ZipFile(..., "w")` raises; there is no handler, so
  the error propagates and no archive file exists;
* `configWriteFails` — `backupZip.write(config_file, "config.ini")`
  raises inside the `with`; `__exit__` still closes the zip, so the
  archive file exists (with `bazarr.db` already written when the
  snapshot succeeded, and without `config.ini`), and the error
  propagates;
* otherwise the final `try: os.remove(database_backup_file)` runs: when
  the snapshot failed the argument is `None` and `os.remove(None)`
  raises `TypeError`, which the `except OSError` clause does not catch,
  so it propagates; when the snapshot succeeded a faulted remove raises
  `OSError`, which is caught and logged. -/
def backup_to_zip (snapshotFails zipCreateFails configWriteFails tempRemoveFails : Bool) :
    BackupResult :=
  if zipCreateFails then
    { archiveCreated := false, archiveHasDb := false, archiveHasConfig := false,
      tempDbPresent := !snapshotFails, raised := some PyError.osError }
  else if configWriteFails then
    { archiveCreated := true, archiveHasDb := !snapshotFails, archiveHasConfig := false,
      tempDbPresent := !snapshotFails, raised := some PyError.osError }
  else if snapshotFails then
    { archiveCreated := true, archiveHasDb := false, archiveHasConfig := true,
      tempDbPresent := false, raised := some PyError.typeError }
  else if tempRemoveFails then
    { archiveCreated := true, archiveHasDb := true, archiveHasConfig := true,
      tempDbPresent := true, raised := none }
  else
    { archiveCreated := true, archiveHasDb := true, archiveHasConfig := true,
      tempDbPresent := false, raised := none }

/-- A file in the backup directory: its basename and its modification
time in epoch seconds. -/
structure BackupFile where
  name : String
  mtime : Int
deriving DecidableEq

/-- State of the configured backup directory. -/
structure BackupDirState where
  backupDirExists : Bool
  files : List BackupFile
deriving DecidableEq

/-- Whether the first character list leads the second (is an initial
segment of it). -/
def charsLeadWith : List Char → List Char → Bool
  | [], _ => true
  | _ :: _, [] => false
  | c :: cs, d :: ds => c == d && charsLeadWith cs ds

/-- The glob pattern `bazarr_backup_v*.zip` on a flat basename: the name
starts with `bazarr_backup_v` and ends with `.zip`.  (The conjunction is
equivalent to the glob: the two fixed parts cannot overlap, since any
name of length < 19 satisfying both would need a character that is both
`_`/`v` and part of `.zip`.) -/
def matchesBackupPattern (n : String) : Bool :=
  charsLeadWith "bazarr_backup_v".data n.data &&
  charsLeadWith ".zip".data.reverse n.data.reverse

/-- `get_backup_path()` (source lines 17-22): `os.makedirs(backup_dir)`
when the directory is missing, then return the configured path; either
way the directory exists afterwards. -/
def get_backup_path (s : BackupDirState) : BackupDirState :=
  { s with backupDirExists := true }

/-- Stable insertion preserving the order of equal keys, as Python's
stable `list.sort(key=os.path.getmtime)` does. -/
def insertByMtime (fl : BackupFile) : List BackupFile → List BackupFile
  | [] => [fl]
  | g :: gs => if fl.mtime ≤ g.mtime then fl :: g :: gs else g :: insertByMtime fl gs

/-- Stable sort of the globbed list by modification time, ascending. -/
def sortByMtime : List BackupFile → List BackupFile
  | [] => []
  | fl :: fls => insertByMtime fl (sortByMtime fls)

/-- `get_backup_files(fullpath=True)` (source lines 33-45): resolve the
backup directory (creating it), glob `bazarr_backup_v*.zip`, sort by
mtime.  The `fullpath=False` variant performs the same directory side
effect and maps each file through `sizeof_fmt` and a date format. -/
def get_backup_files (s : BackupDirState) : BackupDirState × List BackupFile :=
  ( get_backup_path s,
    sortByMtime (s.files.filter (fun fl => matchesBackupPattern fl.name)) )

/-- The rotation deletion test (source line 185):
`datetime.fromtimestamp(os.path.getmtime(file)) + timedelta(days=r) < datetime.utcnow()`.
`datetime.fromtimestamp` renders an epoch instant in the machine's local
timezone — as a naive value it reads `mtime + tzoff` seconds — while
`datetime.utcnow()` renders the current instant `now` with offset 0;
`timedelta(days=r)` adds `r * 86400` seconds. -/
def rotationDeletes (tzoff now r m : Int) : Bool :=
  m + tzoff + r * 86400 < now

/-- `backup_rotation()` (source lines 174-192).  `int(retention)` failing
(`retention = none`) logs an error and returns before touching anything.
Otherwise the backup directory is listed (creating it) and every globbed
file passing the deletion test is removed; a removal failure is logged
and does not stop the loop (removal faults are not modelled here: the
claim under test is about which archives are selected). -/
def backup_rotation (tzoff now : Int) (retention : Option Int) (s : BackupDirState) :
    BackupDirState :=
  match retention with
  | none => s
  | some r =>
      { backupDirExists := true,
        files := s.files.filter
          (fun fl => !(matchesBackupPattern fl.name && rotationDeletes tzoff now r fl.mtime)) }

/-- Round half to even of the fraction `a / b` (`b > 0`), matching
Python's float-to-decimal formatting on the exact values arising in
`sizeof_fmt` below: the floor is `a.fdiv b`, and the fractional part
compares to one half as twice the remainder compares to `b`. -/
def roundHalfEven (a : ℤ) (b : ℕ) : ℤ :=
  let fl : ℤ := a.fdiv (b : ℤ)
  let r2 : ℤ := 2 * (a - fl * (b : ℤ))
  if r2 < (b : ℤ) then fl
  else if (b : ℤ) < r2 then fl + 1
  else if fl % 2 = 0 then fl else fl + 1

/-- Python's format `.1f` applied to the value `n / d`: one decimal
digit, rounding half to even.  The source's minimum width of 3 never
pads, because every rendered value already has at least three
characters. -/
def formatOneDecimal (n : ℤ) (d : ℕ) : String :=
  let t : ℤ := roundHalfEven (10 * n) d
  let sign := if t < 0 then "-" else ""
  sign ++ toString (t.natAbs / 10) ++ "." ++ toString (t.natAbs % 10)

/-- The unit loop of `sizeof_fmt` (source lines 202-207).  The running
float starts at the integer byte count `n` and is divided by `1000.0`
once per iteration; the model carries its exact value as the fraction
`n / d` with `d` the power of 1000 accumulated so far (for the inputs
at issue every such division is exact in binary floating point, since
both operands are exactly representable).  The test `abs(num) < 1000.0`
becomes `n.natAbs < 1000 * d`; past `Z` the loop falls back to `Y`.
The returned string interpolates the unit directly followed by the
suffix. -/
def sizeof_fmt_aux (suffix : String) : List String → ℤ → ℕ → String
  | [], n, d => formatOneDecimal n d ++ " Y" ++ suffix
  | unit :: rest, n, d =>
      if n.natAbs < 1000 * d then formatOneDecimal n d ++ " " ++ unit ++ suffix
      else sizeof_fmt_aux suffix rest n (1000 * d)

/-- `sizeof_fmt(num, suffix="B")` on an integer byte count.  Every call
site uses the default suffix `"B"`, which the model fixes. -/
def sizeof_fmt (num : ℤ) : String :=
  sizeof_fmt_aux "B" ["", "K", "M", "G", "T", "P", "E", "Z"] num 1

/-- A directory entry as supplied by the external provider. -/
structure FSEntry where
  name : String
  path : String
deriving DecidableEq

/-- Modelled from the spec: the external directory-listing provider
`radarr.filesystem.browse_radarr_filesystem` (not among the sources
here).  Per the spec's interface it returns a payload whose
`directories` key lists entries with `name` and `path`, or no result
(null), or raises an error. -/
inductive ProviderOutcome where
  | result (directories : List FSEntry)
  | noResult
  | raisesError
deriving DecidableEq

/-- An entry of the handler's response payload. -/
structure BrowseEntry where
  name : String
  children : Bool
  path : String
deriving DecidableEq

/-- `BrowseRadarrFS.get` (source lines 28-41): call the provider inside
`try`; a `None` result raises `ValueError`, and that together with any
provider error is caught by `except Exception`, returning `[]`.
Otherwise each provider directory becomes an entry with
`children = True`. -/
def browseRadarrFS_get (provider : String → ProviderOutcome) (path : String) :
    List BrowseEntry :=
  match provider path with
  | ProviderOutcome.result dirs =>
      dirs.map (fun item => { name := item.name, children := true, path := item.path })
  | ProviderOutcome.noResult => []
  | ProviderOutcome.raisesError => []

/-! ## Helper lemmas -/

theorem cleanupStaged_liveConfig (f : RestoreFaults) (s : FileState) :
    (cleanupStaged f s).liveConfig = s.liveConfig := by
  unfold cleanupStaged cleanupDbStep cleanupConfigStep
  split_ifs <;> rfl

theorem cleanupStaged_liveDb (f : RestoreFaults) (s : FileState) :
    (cleanupStaged f s).liveDb = s.liveDb := by
  unfold cleanupStaged cleanupDbStep cleanupConfigStep
  split_ifs <;> rfl

theorem removeSideFiles_stagedConfig (f : RestoreFaults) (s : FileState) :
    (removeSideFiles f s).stagedConfig = s.stagedConfig := by
  unfold removeSideFiles
  split_ifs <;> rfl

theorem removeSideFiles_stagedDb (f : RestoreFaults) (s : FileState) :
    (removeSideFiles f s).stagedDb = s.stagedDb := by
  unfold removeSideFiles
  split_ifs <;> rfl

/-! ## Example states -/

/-- A staging directory holding only `config.ini` (content 1); both live
files present. -/
def exPartialStaged : FileState :=
  ⟨some 1, none, some 7, some 8, false, false, true, false, false⟩

/-- A staging directory holding the full pair `config.ini` / `bazarr.db`. -/
def exBothStaged : FileState :=
  ⟨some 1, some 2, some 7, some 8, false, false, true, false, false⟩

/-- The environment in which only the copy of the staged config over the
live config raises `OSError`. -/
def copyConfigFaultOnly : RestoreFaults :=
  ⟨true, false, false, false, false, false, false, false, false⟩

/-! ## Claims -/

/-- C1, counterexample: with only the staged config file present (and no
injected faults), `restore_from_backup` does mutate the filesystem — its
trailing cleanup deletes the single staged file, so the staged path is
not untouched. -/
theorem restore_partial_not_untouched_cex :
    restore_from_backup noRestoreFaults exPartialStaged ≠ exPartialStaged ∧
    exPartialStaged.stagedConfig = some 1 ∧
    (restore_from_backup noRestoreFaults exPartialStaged).stagedConfig = none := by
  decide

/-- C1, amended: when exactly one of the staged config and staged
database files exists and no filesystem operation fails,
`restore_from_backup` copies nothing — the live config, live database,
database side files, restart sentinel and process state are all
untouched — but the trailing cleanup pass deletes the single staged
file, so afterwards neither staged path exists. -/
theorem restore_partial_cleans_staging (s : FileState)
    (h : s.stagedConfig.isSome ≠ s.stagedDb.isSome) :
    (restore_from_backup noRestoreFaults s).liveConfig = s.liveConfig ∧
    (restore_from_backup noRestoreFaults s).liveDb = s.liveDb ∧
    (restore_from_backup noRestoreFaults s).shmPresent = s.shmPresent ∧
    (restore_from_backup noRestoreFaults s).walPresent = s.walPresent ∧
    (restore_from_backup noRestoreFaults s).restartSentinel = s.restartSentinel ∧
    (restore_from_backup noRestoreFaults s).exited = s.exited ∧
    (restore_from_backup noRestoreFaults s).stagedConfig = none ∧
    (restore_from_backup noRestoreFaults s).stagedDb = none := by
  obtain ⟨sc, sd, lc, ld, shm, wal, dir, sent, ex⟩ := s
  cases sc <;> cases sd <;>
    simp_all [restore_from_backup, cleanupStaged, cleanupDbStep, cleanupConfigStep,
      noRestoreFaults]

/-- C1, witness for the amended theorem at a concrete state. -/
theorem restore_partial_cleans_staging_witness :
    (restore_from_backup noRestoreFaults exPartialStaged).liveConfig =
        exPartialStaged.liveConfig ∧
    (restore_from_backup noRestoreFaults exPartialStaged).liveDb = exPartialStaged.liveDb ∧
    (restore_from_backup noRestoreFaults exPartialStaged).shmPresent =
        exPartialStaged.shmPresent ∧
    (restore_from_backup noRestoreFaults exPartialStaged).walPresent =
        exPartialStaged.walPresent ∧
    (restore_from_backup noRestoreFaults exPartialStaged).restartSentinel =
        exPartialStaged.restartSentinel ∧
    (restore_from_backup noRestoreFaults exPartialStaged).exited = exPartialStaged.exited ∧
    (restore_from_backup noRestoreFaults exPartialStaged).stagedConfig = none ∧
    (restore_from_backup noRestoreFaults exPartialStaged).stagedDb = none :=
  restore_partial_cleans_staging exPartialStaged (by decide)

/-- C2, counterexample: a corrupt archive that copies successfully —
extraction fails with `BadZipFile`, yet the restart is still triggered,
because the source sets `success = True` after the extraction
`try/except` regardless of its outcome. -/
theorem corrupt_archive_still_restarts_cex :
    (prepare_restore false true false).extracted = false ∧
    (prepare_restore false true false).restartTriggered = true := by
  decide

/-- C2, amended: `prepare_restore` triggers the restart exactly when the
copy of the archive into the staging directory succeeded, regardless of
whether extraction succeeded; only a failed copy suppresses the
restart. -/
theorem restart_iff_copy_succeeded (copyFails archiveCorrupt removeZipFails : Bool) :
    (prepare_restore copyFails archiveCorrupt removeZipFails).restartTriggered =
      !copyFails := by
  cases copyFails <;> rfl

/-- C3: the claim (`backup_to_zip` never raises) is right about the
intent but wrong about the code — in exactly the state where the
database snapshot step fails, `database_backup_file` is `None` and the
final `os.remove(None)` raises `TypeError`, which the `except OSError`
handler does not catch, so the error propagates to the caller. -/
theorem backup_raises_after_snapshot_failure :
    (backup_to_zip true false false false).raised = some PyError.typeError ∧
    (backup_to_zip false false false false).raised = none := by
  decide

/-- C4, counterexample: when the config write into the archive fails
(the live `config.ini` is unreadable), the archive file is still
produced on disk — the `with` block closes it — but it lacks the member
`config.ini`. -/
theorem archive_without_config_member_cex :
    (backup_to_zip false false true false).archiveCreated = true ∧
    (backup_to_zip false false true false).archiveHasConfig = false := by
  decide

/-- C4, amended: every archive produced by a run of `backup_to_zip` in
which opening the zip and writing the config member succeed contains
`config.ini`, and contains `bazarr.db` exactly when the database
snapshot step succeeded. -/
theorem archive_members_when_config_written (snapshotFails tempRemoveFails : Bool) :
    (backup_to_zip snapshotFails false false tempRemoveFails).archiveCreated = true ∧
    (backup_to_zip snapshotFails false false tempRemoveFails).archiveHasConfig = true ∧
    ((backup_to_zip snapshotFails false false tempRemoveFails).archiveHasDb = true ↔
      snapshotFails = false) := by
  cases snapshotFails <;> cases tempRemoveFails <;> decide

/-- C5: `restore_from_backup` copies over the live config and database
paths only when both staged files are present — whenever at most one is
staged, the live paths are untouched, for every fault environment. -/
theorem restore_no_partial_apply (f : RestoreFaults) (s : FileState)
    (h : ¬(s.stagedConfig.isSome = true ∧ s.stagedDb.isSome = true)) :
    (restore_from_backup f s).liveConfig = s.liveConfig ∧
    (restore_from_backup f s).liveDb = s.liveDb := by
  obtain ⟨sc, sd, lc, ld, shm, wal, dir, sent, ex⟩ := s
  cases sc <;> cases sd
  · exact ⟨rfl, rfl⟩
  · exact ⟨cleanupStaged_liveConfig f _, cleanupStaged_liveDb f _⟩
  · exact ⟨cleanupStaged_liveConfig f _, cleanupStaged_liveDb f _⟩
  · exact absurd ⟨rfl, rfl⟩ h

/-- C5, witness at a concrete partial state. -/
theorem restore_no_partial_apply_witness :
    (restore_from_backup copyConfigFaultOnly exPartialStaged).liveConfig =
        exPartialStaged.liveConfig ∧
    (restore_from_backup copyConfigFaultOnly exPartialStaged).liveDb =
        exPartialStaged.liveDb :=
  restore_no_partial_apply copyConfigFaultOnly exPartialStaged (by decide)

/-- C6, counterexample: a run that enters the both-files-staged branch
in which the config copy raises `OSError` (so the staged config is not
deleted by the copy-then-delete step) and the sentinel write succeeds —
`os._exit(0)` terminates the process before the trailing cleanup pass,
and the staged config file is still present afterwards. -/
theorem exit_skips_final_cleanup_cex :
    (restore_from_backup copyConfigFaultOnly exBothStaged).exited = true ∧
    (restore_from_backup copyConfigFaultOnly exBothStaged).stagedConfig = some 1 := by
  decide

/-- C6, amended: after a run entering the both-files-staged branch in
which no filesystem operation fails, both staged files have been
removed — but by the per-file copy-then-delete steps, not by the final
cleanup pass: when the sentinel write succeeds the process exits before
that pass runs, so a staged file left behind by a failed copy or delete
would persist. -/
theorem restore_both_staged_clears_staging (s : FileState) (c d : Nat)
    (hc : s.stagedConfig = some c) (hd : s.stagedDb = some d) :
    (restore_from_backup noRestoreFaults s).stagedConfig = none ∧
    (restore_from_backup noRestoreFaults s).stagedDb = none ∧
    (restore_from_backup noRestoreFaults s).exited = true := by
  obtain ⟨sc, sd, lc, ld, shm, wal, dir, sent, ex⟩ := s
  subst hc hd
  simp [restore_from_backup, configRestoreStep, dbRestoreStep, sideFileStep, restartStep,
    noRestoreFaults, removeSideFiles_stagedConfig, removeSideFiles_stagedDb]

/-- C6, witness for the amended theorem at a concrete state. -/
theorem restore_both_staged_clears_staging_witness :
    (restore_from_backup noRestoreFaults exBothStaged).stagedConfig = none ∧
    (restore_from_backup noRestoreFaults exBothStaged).stagedDb = none ∧
    (restore_from_backup noRestoreFaults exBothStaged).exited = true :=
  restore_both_staged_clears_staging exBothStaged 1 2 rfl rfl

/-- An archive one hour old at rotation time `1000000`. -/
def exOldArchive : BackupFile :=
  ⟨"bazarr_backup_v1.0.4_a.zip", 996400⟩

/-- A backup directory holding exactly `exOldArchive`. -/
def exRotationDir : BackupDirState :=
  ⟨true, [exOldArchive]⟩

set_option maxRecDepth 8000 in
/-- C7, counterexample: on a machine two hours ahead of UTC
(`tzoff = 7200`), with retention 0 days, an archive whose modification
time (`996400`) is strictly older than "now − retention" (`1000000`) is
not deleted: the source compares `datetime.fromtimestamp` (local time)
with `datetime.utcnow()` (UTC), so the deletion test reads
`996400 + 7200 + 0 < 1000000`, which is false. -/
theorem rotation_spares_strictly_older_archive_cex :
    exOldArchive.mtime < 1000000 - 0 * 86400 ∧
    matchesBackupPattern exOldArchive.name = true ∧
    (backup_rotation 7200 1000000 (some 0) exRotationDir).files = [exOldArchive] := by
  decide

/-- C7, amended: provided the machine's local timezone is UTC (so that
`datetime.fromtimestamp` and `datetime.utcnow` agree, `tzoff = 0`), for
every retention value ≥ 0 `backup_rotation` never deletes a file whose
modification time is at least "now − retention days", and deletes every
archive (file matching the backup pattern) strictly older than that. -/
theorem rotation_window_exact_in_utc (now r : Int) (hr : 0 ≤ r) (s : BackupDirState)
    (fl : BackupFile) (hmem : fl ∈ s.files) :
    (now - r * 86400 ≤ fl.mtime →
      fl ∈ (backup_rotation 0 now (some r) s).files) ∧
    (matchesBackupPattern fl.name = true → fl.mtime < now - r * 86400 →
      fl ∉ (backup_rotation 0 now (some r) s).files) := by
  constructor
  · intro hnew
    have hdel : rotationDeletes 0 now r fl.mtime = false := by
      simp only [rotationDeletes, decide_eq_false_iff_not]
      omega
    simp only [backup_rotation, List.mem_filter]
    exact ⟨hmem, by simp [hdel]⟩
  · intro hmatch hold hin
    have hdel : rotationDeletes 0 now r fl.mtime = true := by
      simp only [rotationDeletes, decide_eq_true_eq]
      omega
    simp only [backup_rotation, List.mem_filter] at hin
    simp [hdel, hmatch] at hin

/-- C7, witness for the amended theorem: with retention 0 at time
`1000000` in UTC, `exOldArchive` (mtime `996400`) is deleted. -/
theorem rotation_window_exact_in_utc_witness :
    exOldArchive ∉ (backup_rotation 0 1000000 (some 0) exRotationDir).files :=
  (rotation_window_exact_in_utc 1000000 0 (by decide) exRotationDir exOldArchive
      (by decide)).2 (by decide) (by decide)

/-- C8, counterexample: `sizeof_fmt(1500)` does not return `"1.5 K"` —
the source interpolates the unit directly followed by the default
suffix `"B"`, yielding `"1.5 KB"`. -/
theorem sizeof_fmt_1500_cex : sizeof_fmt 1500 ≠ "1.5 K" := by
  decide

/-- C8, amended: `sizeof_fmt(999)` returns `"999.0 B"`,
`sizeof_fmt(1500)` returns `"1.5 KB"`, and `sizeof_fmt(10 ** 18)`
returns `"1.0 EB"` — a value in "E" units of the base-1000 ladder, with
the default suffix `"B"` appended to every unit letter. -/
theorem sizeof_fmt_values :
    sizeof_fmt 999 = "999.0 B" ∧
    sizeof_fmt 1500 = "1.5 KB" ∧
    sizeof_fmt (10 ^ 18) = "1.0 EB" := by
  decide

/-- C9: for every provider behaviour and every path, the Radarr browser
handler returns an empty sequence whenever the provider returns no
result or raises, and every entry it does return has `children = true`
(only directory entries are ever produced). -/
theorem browse_radarr_failsoft_dirs_only (provider : String → ProviderOutcome)
    (path : String) :
    ((provider path = ProviderOutcome.noResult ∨
        provider path = ProviderOutcome.raisesError) →
      browseRadarrFS_get provider path = []) ∧
    (∀ e ∈ browseRadarrFS_get provider path, e.children = true) := by
  constructor
  · intro h
    rcases h with h | h <;> simp [browseRadarrFS_get, h]
  · intro e he
    unfold browseRadarrFS_get at he
    cases hp : provider path with
    | result dirs =>
        rw [hp] at he
        obtain ⟨item, _, rfl⟩ := List.mem_map.mp he
        rfl
    | noResult => rw [hp] at he; cases he
    | raisesError => rw [hp] at he; cases he

/-- C9, witness: a provider that returns no result yields the empty
listing. -/
theorem browse_radarr_failsoft_dirs_only_witness :
    browseRadarrFS_get (fun _ => ProviderOutcome.noResult) "movies" = [] :=
  (browse_radarr_failsoft_dirs_only (fun _ => ProviderOutcome.noResult) "movies").1
    (Or.inl rfl)

/-- C10: listing backups is not side-effect free — `get_backup_files`
resolves the backup directory through `get_backup_path`, which creates
it when missing, so the directory exists after every listing call,
whatever the starting state. -/
theorem listing_creates_backup_dir (s : BackupDirState) :
    ((get_backup_files s).1).backupDirExists = true :=
  rfl
